import Mathlib

/-!
Verification development for the AI Invoice Auditor core (`src/app.py`).

The embedding models the non-UI core of `app.py`:

* the pydantic data model `LineItem`, `RiskAssessment`, `InvoiceExtraction`
  (lines 36-56), including pydantic v2 lax-mode validation of a parsed JSON
  value (numeric strings are coerced to numbers, integral numbers to ints,
  extra object keys are ignored, every declared field is required);
* `extract_text_from_pdf` (lines 59-69), with the pdfplumber document
  abstracted to either an exception during open/read or a list of pages,
  each yielding `Option String` from `page.extract_text()`;
* `analyze_invoice` (lines 71-151), with the provider SDK exchange abstracted
  to the outcome of the single outbound call: an exception classified by kind,
  or a reply whose `json.loads` result is `none` (parse error, raises) or a
  parsed JSON value.  Every exception inside the `try` block is caught at
  line 149 and turned into `None` after an `st.error` display (a UI side
  effect that is not part of the returned value and is not modelled).

Decimal numbers are modelled as rationals.  JSON text serialization composed
with `json.loads` is modelled as the identity on parsed JSON values.
-/

/-- A parsed JSON value, as produced by `json.loads`.  Numbers are modelled
as rationals; object key duplicates are assumed already collapsed by the
parser, so field lookup takes the first binding. -/
inductive Json where
  | null
  | bool (b : Bool)
  | num (q : ℚ)
  | str (s : String)
  | arr (elems : List Json)
  | obj (fields : List (String × Json))

/-- Look up a key in a parsed JSON object's field list. -/
def lookupField (fields : List (String × Json)) (key : String) : Option Json :=
  match fields with
  | [] => none
  | (k, v) :: rest => if k = key then some v else lookupField rest key

/-- Value of a run of decimal digits; `none` if any character is not a digit
(the empty run has value 0, the callers require at least one digit overall). -/
def digitsVal (cs : List Char) : Option ℕ :=
  cs.foldl
    (fun acc c =>
      acc.bind fun n => if c.isDigit then some (10 * n + (c.toNat - 48)) else none)
    (some 0)

/-- Syntactic part of decimal-string parsing: optional sign, digits with an
optional fractional part, at least one digit in total.  Returns
`(negative, integer part, fractional part, number of fractional digits)`. -/
def parseParts (s : String) : Option (Bool × ℕ × ℕ × ℕ) :=
  let cs := s.toList
  let signed : Bool × List Char :=
    match cs with
    | '-' :: r => (true, r)
    | '+' :: r => (false, r)
    | r => (false, r)
  let intPart := signed.2.takeWhile Char.isDigit
  let rest := signed.2.dropWhile Char.isDigit
  match rest with
  | [] =>
      if intPart.isEmpty then none
      else (digitsVal intPart).map fun n => (signed.1, n, 0, 0)
  | '.' :: frac =>
      if frac.all Char.isDigit ∧ ¬ (intPart.isEmpty ∧ frac.isEmpty) then
        (digitsVal intPart).bind fun i =>
          (digitsVal frac).map fun f => (signed.1, i, f, frac.length)
      else none
  | _ => none

/-- Plain decimal-string parsing, modelling Python `float(s)` as invoked by
pydantic's lax string-to-number coercion.  Exponent and `inf`/`nan` spellings
play no role in any invoice reply considered here and are rejected. -/
def parseDecimal (s : String) : Option ℚ :=
  (parseParts s).map fun p =>
    (if p.1 then (-1 : ℚ) else 1) * ((p.2.1 : ℚ) + (p.2.2.1 : ℚ) / (10 : ℚ) ^ p.2.2.2)

/-- pydantic v2 lax validation of a `float`-typed field: JSON numbers are
accepted, numeric strings are coerced via standard numeric parsing, anything
else is a validation error. -/
def validateFloat : Json → Option ℚ
  | .num q => some q
  | .str s => parseDecimal s
  | _ => none

/-- pydantic v2 lax validation of an `int`-typed field: integral JSON numbers
and integral numeric strings are accepted; nothing else.  No range constraint
is declared on any `int` field of the model. -/
def validateInt : Json → Option ℤ
  | .num q => if q.den = 1 then some q.num else none
  | .str s => (parseDecimal s).bind fun q => if q.den = 1 then some q.num else none
  | _ => none

/-- Validation of a `str`-typed field: pydantic v2 does not coerce numbers to
strings. -/
def validateStr : Json → Option String
  | .str s => some s
  | _ => none

/-- Validation of a `bool`-typed field. -/
def validateBool : Json → Option Bool
  | .bool b => some b
  | _ => none

/-- Validate every element of a JSON array with `f`, failing if any element
fails; a non-array value fails. -/
def validateList {α : Type} (f : Json → Option α) : List Json → Option (List α)
  | [] => some []
  | x :: xs => (f x).bind fun a => (validateList f xs).map fun as => a :: as

/-- `class LineItem(BaseModel)`, app.py lines 36-40. -/
structure LineItem where
  description : String
  quantity : ℚ
  unit_price : ℚ
  total : ℚ
deriving DecidableEq

/-- `class RiskAssessment(BaseModel)`, app.py lines 42-45.  `fraud_score` is
declared as a bare `int` whose `Field(description=...)` adds documentation
only, no constraint. -/
structure RiskAssessment where
  is_math_correct : Bool
  flagged_issues : List String
  fraud_score : ℤ
deriving DecidableEq

/-- `class InvoiceExtraction(BaseModel)`, app.py lines 47-56.  `currency` is a
bare `str` field; its `Field(description="Currency code like USD, EUR")` adds
documentation only, no constraint. -/
structure InvoiceExtraction where
  vendor_name : String
  invoice_date : String
  invoice_number : String
  line_items : List LineItem
  subtotal : ℚ
  tax_amount : ℚ
  grand_total : ℚ
  currency : String
  risk_assessment : RiskAssessment
deriving DecidableEq

/-- Validation of one `LineItem` from a parsed JSON value. -/
def validateLineItem (j : Json) : Option LineItem :=
  match j with
  | .obj fields =>
      (lookupField fields "description").bind fun jd =>
      (validateStr jd).bind fun description =>
      (lookupField fields "quantity").bind fun jq =>
      (validateFloat jq).bind fun quantity =>
      (lookupField fields "unit_price").bind fun ju =>
      (validateFloat ju).bind fun unit_price =>
      (lookupField fields "total").bind fun jt =>
      (validateFloat jt).map fun total =>
      { description := description, quantity := quantity,
        unit_price := unit_price, total := total }
  | _ => none

/-- Validation of the `RiskAssessment` submodel from a parsed JSON value. -/
def validateRiskAssessment (j : Json) : Option RiskAssessment :=
  match j with
  | .obj fields =>
      (lookupField fields "is_math_correct").bind fun jm =>
      (validateBool jm).bind fun is_math_correct =>
      (lookupField fields "flagged_issues").bind fun jf =>
      (match jf with
       | .arr xs => validateList validateStr xs
       | _ => none).bind fun flagged_issues =>
      (lookupField fields "fraud_score").bind fun js =>
      (validateInt js).map fun fraud_score =>
      { is_math_correct := is_math_correct, flagged_issues := flagged_issues,
        fraud_score := fraud_score }
  | _ => none

/-- Validation of the full `InvoiceExtraction` model from a parsed JSON value:
the semantics of `InvoiceExtraction(**json.loads(raw))` (and of the OpenAI
SDK's schema-driven `.parse`, which validates against the same model). -/
def validateInvoiceExtraction (j : Json) : Option InvoiceExtraction :=
  match j with
  | .obj fields =>
      (lookupField fields "vendor_name").bind fun jv =>
      (validateStr jv).bind fun vendor_name =>
      (lookupField fields "invoice_date").bind fun jd =>
      (validateStr jd).bind fun invoice_date =>
      (lookupField fields "invoice_number").bind fun jn =>
      (validateStr jn).bind fun invoice_number =>
      (lookupField fields "line_items").bind fun jl =>
      (match jl with
       | .arr xs => validateList validateLineItem xs
       | _ => none).bind fun line_items =>
      (lookupField fields "subtotal").bind fun js =>
      (validateFloat js).bind fun subtotal =>
      (lookupField fields "tax_amount").bind fun jt =>
      (validateFloat jt).bind fun tax_amount =>
      (lookupField fields "grand_total").bind fun jg =>
      (validateFloat jg).bind fun grand_total =>
      (lookupField fields "currency").bind fun jc =>
      (validateStr jc).bind fun currency =>
      (lookupField fields "risk_assessment").bind fun jr =>
      (validateRiskAssessment jr).map fun risk_assessment =>
      { vendor_name := vendor_name, invoice_date := invoice_date,
        invoice_number := invoice_number, line_items := line_items,
        subtotal := subtotal, tax_amount := tax_amount,
        grand_total := grand_total, currency := currency,
        risk_assessment := risk_assessment }
  | _ => none

/-- Serialization of a `LineItem` back to JSON, as in `model_dump_json`
(app.py line 245); text printing composed with re-parsing is modelled as the
identity on JSON values. -/
def LineItem.toJson (li : LineItem) : Json :=
  .obj [("description", .str li.description),
        ("quantity", .num li.quantity),
        ("unit_price", .num li.unit_price),
        ("total", .num li.total)]

/-- Serialization of a `RiskAssessment` back to JSON, as in `model_dump_json`. -/
def RiskAssessment.toJson (ra : RiskAssessment) : Json :=
  .obj [("is_math_correct", .bool ra.is_math_correct),
        ("flagged_issues", .arr (ra.flagged_issues.map Json.str)),
        ("fraud_score", .num (ra.fraud_score : ℚ))]

/-- Serialization of an `InvoiceExtraction` back to JSON, as in
`model_dump_json`. -/
def InvoiceExtraction.toJson (r : InvoiceExtraction) : Json :=
  .obj [("vendor_name", .str r.vendor_name),
        ("invoice_date", .str r.invoice_date),
        ("invoice_number", .str r.invoice_number),
        ("line_items", .arr (r.line_items.map LineItem.toJson)),
        ("subtotal", .num r.subtotal),
        ("tax_amount", .num r.tax_amount),
        ("grand_total", .num r.grand_total),
        ("currency", .str r.currency),
        ("risk_assessment", RiskAssessment.toJson r.risk_assessment)]

/-- A pdfplumber document as seen by `extract_text_from_pdf`: either opening
or reading it raises an exception (message attached), or it yields a list of
pages whose `page.extract_text()` results are `Option String` (`none` models
Python `None` for a page with no text layer). -/
inductive PdfDoc where
  | failure (msg : String)
  | pages (ps : List (Option String))

/-- `extract_text_from_pdf` (app.py lines 59-69): concatenates
`page.extract_text() or ""` over the pages; on any exception, displays an
error (UI side effect, not modelled) and returns `None`. -/
def extract_text_from_pdf (uploaded_file : PdfDoc) : Option String :=
  match uploaded_file with
  | .failure _ => none
  | .pages ps => some (ps.foldl (fun text page => text ++ page.getD "") "")

/-- Classification of the exception raised by a provider SDK call, per the
spec's `AdapterError` taxonomy. -/
inductive AdapterError where
  | unauthorized
  | rateLimited
  | timeout
  | unreachable
  | other (msg : String)
deriving DecidableEq

/-- Outcome of the single outbound exchange a provider branch of
`analyze_invoice` performs: an exception classified by kind, or a reply whose
`json.loads` result is `none` (the reply is not valid JSON, so `json.loads`
raises) or a parsed JSON value.  All four SDKs are modelled as installed
(`genai`, `OpenAI`, `anthropic`, `Groq` imports succeeded). -/
abbrev BackendOutcome := Except AdapterError (Option Json)

/-- The body each recognized provider branch of `analyze_invoice` reduces to:
make the one backend call, parse and validate the reply against
`InvoiceExtraction`; any exception (adapter failure, `json.loads` failure, or
pydantic `ValidationError`) is caught by the handler at app.py line 149,
which displays `st.error` (UI side effect, not modelled) and returns `None`.
The second component counts backend calls made. -/
def runProviderBranch (backend : BackendOutcome) : Option InvoiceExtraction × ℕ :=
  match backend with
  | .error _ => (none, 1)
  | .ok none => (none, 1)
  | .ok (some j) => (validateInvoiceExtraction j, 1)

/-- `analyze_invoice` (app.py lines 71-151).  The four provider branches
differ only in how the instruction and `text_content` are packaged into the
request (not modelled: the reply is the backend oracle's business); each makes
exactly one call and validates the reply.  When `provider` matches no branch,
the `try` body falls through and the function returns `None` without any
backend call. -/
def analyze_invoice (backend : BackendOutcome)
    (provider api_key text_content : String) : Option InvoiceExtraction × ℕ :=
  if provider = "Google Gemini" then runProviderBranch backend
  else if provider = "OpenAI" then runProviderBranch backend
  else if provider = "Anthropic (Claude)" then runProviderBranch backend
  else if provider = "Groq (Llama 3)" then runProviderBranch backend
  else (none, 0)

/-- The provider names recognized by `analyze_invoice`'s branch chain (the
same four the sidebar radio button offers, app.py line 161). -/
def recognizedProviders : List String :=
  ["Google Gemini", "OpenAI", "Anthropic (Claude)", "Groq (Llama 3)"]

/-- Backend reply JSON shaped like the spec's end-to-end scenario A, with the
line item's quantity, the line item's total, the currency and the fraud score
left as parameters. -/
def mkInvoiceJson (qty total currency fraud : Json) : Json :=
  .obj [("vendor_name", .str "Acme"),
        ("invoice_date", .str "2024-01-05"),
        ("invoice_number", .str "INV-1"),
        ("line_items", .arr [.obj [("description", .str "Widget"),
                                   ("quantity", qty),
                                   ("unit_price", .num 10),
                                   ("total", total)]]),
        ("subtotal", .num 20),
        ("tax_amount", .num 2),
        ("grand_total", .num 22),
        ("currency", currency),
        ("risk_assessment", .obj [("is_math_correct", .bool true),
                                  ("flagged_issues", .arr []),
                                  ("fraud_score", fraud)])]

/-- The canonical record the reply `mkInvoiceJson` validates into. -/
def mkInvoiceRecord (qty total : ℚ) (currency : String) (fraud : ℤ) :
    InvoiceExtraction :=
  { vendor_name := "Acme", invoice_date := "2024-01-05",
    invoice_number := "INV-1",
    line_items := [{ description := "Widget", quantity := qty,
                     unit_price := 10, total := total }],
    subtotal := 20, tax_amount := 2, grand_total := 22, currency := currency,
    risk_assessment := { is_math_correct := true, flagged_issues := [],
                         fraud_score := fraud } }

/-- Scenario A of the spec: consistent arithmetic, fraud score 5. -/
def scenarioA : Json := mkInvoiceJson (.num 2) (.num 20) (.str "USD") (.num 5)

/-- Scenario B of the spec: the line item's total is 25 although
quantity * unit_price = 20, and the backend still reports
`is_math_correct = true` with fraud score 5. -/
def scenarioB : Json := mkInvoiceJson (.num 2) (.num 25) (.str "USD") (.num 5)

/-- The record scenario B validates into. -/
def scenarioBRecord : InvoiceExtraction := mkInvoiceRecord 2 25 "USD" 5

/-- Every recognized provider branch reduces to the shared
call-validate-catch body. -/
theorem analyze_recognized (backend : BackendOutcome) (p api_key text_content : String)
    (hp : p ∈ recognizedProviders) :
    analyze_invoice backend p api_key text_content = runProviderBranch backend := by
  simp only [recognizedProviders, List.mem_cons, List.not_mem_nil, or_false] at hp
  rcases hp with h | h | h | h <;> subst h <;> rfl

/-- An `int` field validates any integer-valued JSON number, with no range
constraint. -/
theorem validateInt_intCast (z : ℤ) : validateInt (Json.num (z : ℚ)) = some z := by
  simp [validateInt]

/-- Validating a serialized string list recovers the list. -/
theorem validateList_str_map (l : List String) :
    validateList validateStr (l.map Json.str) = some l := by
  induction l with
  | nil => rfl
  | cons s rest ih => simp [validateList, validateStr, ih]

/-- Validating a serialized line item recovers the line item. -/
theorem validateLineItem_toJson (li : LineItem) :
    validateLineItem li.toJson = some li := rfl

/-- Validating a serialized risk assessment recovers the risk assessment. -/
theorem validateRiskAssessment_toJson (ra : RiskAssessment) :
    validateRiskAssessment ra.toJson = some ra := by
  obtain ⟨b, issues, score⟩ := ra
  simp [RiskAssessment.toJson, validateRiskAssessment, lookupField,
        validateBool, validateList_str_map, validateInt_intCast]

/-- Validating a serialized line-item list recovers the list. -/
theorem validateList_lineItem_map (items : List LineItem) :
    validateList validateLineItem (items.map LineItem.toJson) = some items := by
  induction items with
  | nil => rfl
  | cons li rest ih => simp [validateList, validateLineItem_toJson, ih]

/-- Validating a serialized record recovers the record. -/
theorem validate_toJson (r : InvoiceExtraction) :
    validateInvoiceExtraction r.toJson = some r := by
  obtain ⟨v, d, n, items, st, tax, g, c, ra⟩ := r
  simp [InvoiceExtraction.toJson, validateInvoiceExtraction, lookupField,
        validateStr, validateFloat, validateList_lineItem_map,
        validateRiskAssessment_toJson]

example : parseParts "12.50" = some (false, 12, 50, 2) := by decide

example : validateInvoiceExtraction scenarioA =
    some (mkInvoiceRecord 2 20 "USD" 5) := rfl

example : validateInvoiceExtraction scenarioB = some scenarioBRecord := rfl

example : validateInvoiceExtraction Json.null = none := rfl

/-- Accumulating page text over pages with no text layer leaves the
accumulator unchanged. -/
theorem foldl_pages_all_none (ps : List (Option String)) (acc : String)
    (h : ∀ x ∈ ps, x = none) :
    ps.foldl (fun text page => text ++ page.getD "") acc = acc := by
  induction ps generalizing acc with
  | nil => rfl
  | cons p rest ih =>
      have hp : p = none := h p (by simp)
      have hrest : ∀ x ∈ rest, x = none := fun x hx => h x (by simp [hx])
      subst hp
      simpa using ih acc hrest

/-- C1 counterexample: on the spec's scenario B reply (line total 25 although
quantity * unit_price = 20, a mismatch of 5 > 0.01, and the backend reporting
`is_math_correct = true` with no flagged issue), `analyze_invoice` returns the
record with `is_math_correct` still `true` and `flagged_issues` still empty:
no consistency-checker stage exists in the code. -/
theorem C1_counterexample :
    (analyze_invoice (Except.ok (some scenarioB)) "Google Gemini" "key" "invoice").1
      = some scenarioBRecord
    ∧ scenarioBRecord.line_items =
        [{ description := "Widget", quantity := 2, unit_price := 10, total := 25 }]
    ∧ |(2 : ℚ) * 10 - 25| > 1 / 100
    ∧ scenarioBRecord.risk_assessment.is_math_correct = true
    ∧ scenarioBRecord.risk_assessment.flagged_issues = [] :=
  ⟨rfl, rfl, by norm_num, rfl, rfl⟩

/-- C1 (amended): for every validated invoice record, including any with a
line item whose total differs from quantity * unit_price by more than 0.01,
`analyze_invoice` returns the record exactly as validated: `is_math_correct`
and `flagged_issues` stay whatever the backend reported, because the code has
no consistency-checker stage. -/
theorem C1_no_consistency_check (backend_reply : Json) (r : InvoiceExtraction)
    (p api_key text_content : String) (hp : p ∈ recognizedProviders)
    (hval : validateInvoiceExtraction backend_reply = some r)
    (hbad : ∃ li ∈ r.line_items, |li.quantity * li.unit_price - li.total| > 1 / 100) :
    (analyze_invoice (Except.ok (some backend_reply)) p api_key text_content).1
      = some r := by
  rw [analyze_recognized _ _ _ _ hp]
  simpa [runProviderBranch] using hval

/-- C1 witness: the amended statement applied to scenario B. -/
theorem C1_witness :
    (analyze_invoice (Except.ok (some scenarioB)) "Google Gemini" "key" "invoice").1
      = some scenarioBRecord :=
  C1_no_consistency_check scenarioB scenarioBRecord "Google Gemini" "key" "invoice"
    (by simp [recognizedProviders]) rfl
    ⟨{ description := "Widget", quantity := 2, unit_price := 10, total := 25 },
     by simp [scenarioBRecord, mkInvoiceRecord], by norm_num⟩

/-- C2 counterexample: on the spec's scenario B reply, the recomputed
arithmetic is wrong (mismatch 5 > 0.01) and the backend-reported fraud score 5
is below the floor 40, yet `analyze_invoice` returns fraud score 5 unchanged:
no floor is ever applied. -/
theorem C2_counterexample :
    ((analyze_invoice (Except.ok (some scenarioB)) "OpenAI" "key" "invoice").1).map
        (fun x => x.risk_assessment.fraud_score) = some 5
    ∧ (5 : ℤ) < 40
    ∧ |(2 : ℚ) * 10 - 25| > 1 / 100 :=
  ⟨rfl, by norm_num, by norm_num⟩

/-- C2 (amended): `analyze_invoice` always returns the backend-reported
fraud score untouched; no minimum floor is applied in any case, including when
the independently recomputed arithmetic would be wrong. -/
theorem C2_fraud_score_untouched (backend_reply : Json) (r : InvoiceExtraction)
    (p api_key text_content : String) (hp : p ∈ recognizedProviders)
    (hval : validateInvoiceExtraction backend_reply = some r) :
    ((analyze_invoice (Except.ok (some backend_reply)) p api_key text_content).1).map
        (fun x => x.risk_assessment.fraud_score)
      = some r.risk_assessment.fraud_score := by
  rw [analyze_recognized _ _ _ _ hp]
  simp [runProviderBranch, hval]

/-- C2 witness: the amended statement applied to scenario B. -/
theorem C2_witness :
    ((analyze_invoice (Except.ok (some scenarioB)) "OpenAI" "key" "invoice").1).map
        (fun x => x.risk_assessment.fraud_score)
      = some scenarioBRecord.risk_assessment.fraud_score :=
  C2_fraud_score_untouched scenarioB scenarioBRecord "OpenAI" "key" "invoice"
    (by simp [recognizedProviders]) rfl

/-- C3 counterexample: a reply with `fraud_score = 150` passes validation and
`analyze_invoice` returns it to the caller with fraud score 150, outside
[0,100]: the `int` field declares no range constraint. -/
theorem C3_counterexample :
    (analyze_invoice
        (Except.ok (some (mkInvoiceJson (.num 2) (.num 20) (.str "USD") (.num 150))))
        "Groq (Llama 3)" "key" "invoice").1
      = some (mkInvoiceRecord 2 20 "USD" 150)
    ∧ ¬ ((mkInvoiceRecord 2 20 "USD" 150).risk_assessment.fraud_score ≤ 100) :=
  ⟨rfl, by decide⟩

/-- C4 counterexample: a reply whose `quantity` is the JSON string "12.50"
validates successfully, with the string coerced to the number 12.5, instead
of failing with a schema violation: pydantic lax mode coerces numeric
strings. -/
theorem C4_counterexample :
    validateInvoiceExtraction (mkInvoiceJson (.str "12.50") (.num 20) (.str "USD") (.num 5))
      = some (mkInvoiceRecord (25 / 2) 20 "USD" 5) := by
  have hp : parseParts "12.50" = some (false, 12, 50, 2) := by decide
  have h : parseDecimal "12.50" = some (25 / 2) := by
    rw [parseDecimal, hp]; norm_num
  simp [mkInvoiceJson, mkInvoiceRecord, validateInvoiceExtraction, lookupField,
        validateStr, validateFloat, validateBool, validateList, validateLineItem,
        validateRiskAssessment, validateInt, h]

/-- C4 (amended): for every number-typed field emitted as a JSON string, if
the string parses under standard numeric parsing then validation succeeds and
coerces it to that number (shown here for a line item's quantity); validation
fails only when the string does not parse as a number. -/
theorem C4_numeric_string_coerced (s : String) (q : ℚ)
    (h : parseDecimal s = some q) :
    validateInvoiceExtraction (mkInvoiceJson (.str s) (.num 20) (.str "USD") (.num 5))
      = some (mkInvoiceRecord q 20 "USD" 5) := by
  simp [mkInvoiceJson, mkInvoiceRecord, validateInvoiceExtraction, lookupField,
        validateStr, validateFloat, validateBool, validateList, validateLineItem,
        validateRiskAssessment, validateInt, h]

/-- C4 witness: the amended statement applied to the string "3.5". -/
theorem C4_witness :
    validateInvoiceExtraction (mkInvoiceJson (.str "3.5") (.num 20) (.str "USD") (.num 5))
      = some (mkInvoiceRecord (7 / 2) 20 "USD" 5) :=
  C4_numeric_string_coerced "3.5" (7 / 2)
    (by
      have hp : parseParts "3.5" = some (false, 3, 5, 1) := by decide
      rw [parseDecimal, hp]; norm_num)

/-- C5 counterexample: a run whose provider call fails with Unauthorized, and
a run whose reply is not valid JSON, both return `None` to the caller — the
return type carries no error value at all, so the caller gets an untyped
failure outcome, not a classified stage-tagged error. -/
theorem C5_counterexample :
    analyze_invoice (Except.error AdapterError.unauthorized) "OpenAI" "key" "invoice"
      = (none, 1)
    ∧ analyze_invoice (Except.ok none) "OpenAI" "key" "invoice" = (none, 1) :=
  ⟨rfl, rfl⟩

/-- C5 (amended): for every failing run (provider call raises, reply is not
valid JSON, or the reply violates the schema), `analyze_invoice` displays an
error message as a UI side effect and returns the same untyped `None` to the
caller; no classified, stage-tagged error value is returned. -/
theorem C5_failures_return_none (p api_key text_content : String)
    (e : AdapterError) (j : Json) (hp : p ∈ recognizedProviders)
    (hj : validateInvoiceExtraction j = none) :
    (analyze_invoice (Except.error e) p api_key text_content).1 = none
    ∧ (analyze_invoice (Except.ok none) p api_key text_content).1 = none
    ∧ (analyze_invoice (Except.ok (some j)) p api_key text_content).1 = none := by
  refine ⟨?_, ?_, ?_⟩ <;> rw [analyze_recognized _ _ _ _ hp] <;>
    simp [runProviderBranch, hj]

/-- C5 witness: the amended statement applied to a Timeout failure and to the
reply `null`, which violates the schema. -/
theorem C5_witness :
    (analyze_invoice (Except.error AdapterError.timeout)
        "Anthropic (Claude)" "key" "invoice").1 = none
    ∧ (analyze_invoice (Except.ok none) "Anthropic (Claude)" "key" "invoice").1 = none
    ∧ (analyze_invoice (Except.ok (some Json.null))
        "Anthropic (Claude)" "key" "invoice").1 = none :=
  C5_failures_return_none "Anthropic (Claude)" "key" "invoice"
    AdapterError.timeout Json.null (by simp [recognizedProviders]) rfl

/-- C6 counterexample: a run whose provider call fails with Timeout makes
exactly one backend call, not the two calls that "retried exactly once"
requires. -/
theorem C6_counterexample :
    (analyze_invoice (Except.error AdapterError.timeout)
        "Google Gemini" "key" "invoice").2 = 1
    ∧ (1 : ℕ) ≠ 2 :=
  ⟨rfl, by decide⟩

/-- C6 (amended): no failure is ever retried: for every run whose provider
call fails — with Unauthorized or with Timeout alike — exactly one backend
call is made and the failure is surfaced as `None` after that single
attempt. -/
theorem C6_no_retries (p api_key text_content : String)
    (hp : p ∈ recognizedProviders) :
    analyze_invoice (Except.error AdapterError.unauthorized) p api_key text_content
      = (none, 1)
    ∧ analyze_invoice (Except.error AdapterError.timeout) p api_key text_content
      = (none, 1) := by
  constructor <;> rw [analyze_recognized _ _ _ _ hp] <;> rfl

/-- C6 witness: the amended statement applied to the Groq provider. -/
theorem C6_witness :
    analyze_invoice (Except.error AdapterError.unauthorized)
        "Groq (Llama 3)" "key" "invoice" = (none, 1)
    ∧ analyze_invoice (Except.error AdapterError.timeout)
        "Groq (Llama 3)" "key" "invoice" = (none, 1) :=
  C6_no_retries "Groq (Llama 3)" "key" "invoice" (by simp [recognizedProviders])

/-- C7 counterexample: replies whose currency is "DOLLARS" (7 letters) or
"us" (lowercase, 2 letters) validate successfully and keep those values: the
`currency` field is a bare `str` with no shape constraint. -/
theorem C7_counterexample :
    validateInvoiceExtraction (mkInvoiceJson (.num 2) (.num 20) (.str "DOLLARS") (.num 5))
      = some (mkInvoiceRecord 2 20 "DOLLARS" 5)
    ∧ validateInvoiceExtraction (mkInvoiceJson (.num 2) (.num 20) (.str "us") (.num 5))
      = some (mkInvoiceRecord 2 20 "us" 5) :=
  ⟨rfl, rfl⟩

/-- C7 (amended): `currency` is validated only as a string; every string
value, of any length or case, validates successfully and is returned
unchanged — no schema violation is raised for non-3-letter codes. -/
theorem C7_currency_shape_unchecked (s : String) :
    validateInvoiceExtraction (mkInvoiceJson (.num 2) (.num 20) (.str s) (.num 5))
      = some (mkInvoiceRecord 2 20 s 5) := rfl

/-- C8: for every raw reply that validates successfully into a canonical
record, serializing that record back to JSON and validating again yields the
same record (round-trip idempotence of validate after serialize). -/
theorem C8_roundtrip (j : Json) (r : InvoiceExtraction)
    (h : validateInvoiceExtraction j = some r) :
    validateInvoiceExtraction (InvoiceExtraction.toJson r) = some r :=
  validate_toJson r

/-- C8 witness: the round-trip law applied to the scenario A reply. -/
theorem C8_witness :
    validateInvoiceExtraction (InvoiceExtraction.toJson (mkInvoiceRecord 2 20 "USD" 5))
      = some (mkInvoiceRecord 2 20 "USD" 5) :=
  C8_roundtrip scenarioA (mkInvoiceRecord 2 20 "USD" 5) rfl

/-- C9: for every provider argument that is none of the four recognized
names, `analyze_invoice` makes no backend call and returns `None`, whatever
the credential and document text. -/
theorem C9_unknown_provider (backend : BackendOutcome)
    (p api_key text_content : String) (hp : p ∉ recognizedProviders) :
    analyze_invoice backend p api_key text_content = (none, 0) := by
  simp only [recognizedProviders, List.mem_cons, List.not_mem_nil, or_false,
             not_or] at hp
  obtain ⟨h1, h2, h3, h4⟩ := hp
  simp [analyze_invoice, h1, h2, h3, h4]

/-- C9 witness: the statement applied to the unrecognized provider
"Mistral". -/
theorem C9_witness :
    analyze_invoice (Except.ok none) "Mistral" "key" "invoice" = (none, 0) :=
  C9_unknown_provider (Except.ok none) "Mistral" "key" "invoice"
    (by simp [recognizedProviders])

/-- C10: a PDF that opens and reads without an exception but whose pages have
no extractable text yields the empty string (a successful result); reading any
list of pages never yields `None`, which arises only when opening or reading
raises. -/
theorem C10_empty_text_is_success (ps qs : List (Option String)) (msg : String)
    (h : ∀ x ∈ ps, x = none) :
    extract_text_from_pdf (PdfDoc.pages ps) = some ""
    ∧ extract_text_from_pdf (PdfDoc.failure msg) = none
    ∧ extract_text_from_pdf (PdfDoc.pages qs) ≠ none := by
  refine ⟨?_, rfl, ?_⟩
  · simp [extract_text_from_pdf, foldl_pages_all_none ps "" h]
  · simp [extract_text_from_pdf]

/-- C10 witness: the statement applied to a two-page document with no text
layer, an unreadable document, and a document with one page of text. -/
theorem C10_witness :
    extract_text_from_pdf (PdfDoc.pages [none, none]) = some ""
    ∧ extract_text_from_pdf (PdfDoc.failure "read error") = none
    ∧ extract_text_from_pdf (PdfDoc.pages [some "hello", none]) ≠ none :=
  C10_empty_text_is_success [none, none] [some "hello", none] "read error"
    (by simp)

/-- C3 (amended): validation checks `fraud_score` only for being an integer;
any integer value, inside or outside [0,100], validates successfully and is
returned unchanged, so returned records can carry out-of-range fraud
scores. -/
theorem C3_fraud_score_range_unchecked (n : ℤ) :
    validateInvoiceExtraction (mkInvoiceJson (.num 2) (.num 20) (.str "USD") (.num (n : ℚ)))
      = some (mkInvoiceRecord 2 20 "USD" n) := by
  simp [mkInvoiceJson, mkInvoiceRecord, validateInvoiceExtraction, lookupField,
        validateStr, validateFloat, validateBool, validateList, validateLineItem,
        validateRiskAssessment, validateInt_intCast]

example : parseDecimal "12.50" = some (25 / 2) := by
  have h : parseParts "12.50" = some (false, 12, 50, 2) := by decide
  rw [parseDecimal, h]
  norm_num

example : parseDecimal "2" = some 2 := by
  have h : parseParts "2" = some (false, 2, 0, 0) := by decide
  rw [parseDecimal, h]
  norm_num

example : parseDecimal "abc" = none := by
  have h : parseParts "abc" = none := by decide
  rw [parseDecimal, h]
  rfl

example : parseDecimal "" = none := by
  have h : parseParts "" = none := by decide
  rw [parseDecimal, h]
  rfl
